import Mathlib

/-!
Verification development for the BBC-Weather-Automation repository
(`src/get.py`, `src/data.py`).  The Python source is shallowly embedded:
pure functions become Lean functions, the sqlite tables become explicit
list-valued state threaded through the operations, Python exceptions
become `Option` (`none` = the call raised), machine reads of the clock
(`dt.date.today()`, `time.time()`) become explicit parameters, and
Python `int`s become `Int`/`Nat`.
-/

namespace BBCWeather

/-! ### Python string primitives used by the source -/

/-- Python `str.isdigit()` restricted to ASCII digits (the inputs the
source feeds it are ASCII): true iff nonempty and all digits. -/
def pyIsDigitList (cs : List Char) : Bool :=
  !cs.isEmpty && cs.all Char.isDigit

/-- Numeric value of a list of decimal digit characters. -/
def digitsToNat (cs : List Char) : Nat :=
  cs.foldl (fun a c => a * 10 + (c.toNat - 48)) 0

/-- Python `int(s)` on the tokens the source passes it: succeeds exactly on
nonempty all-digit strings (on anything else the source call raises, either
in `int` itself or in the subsequent `date`/`datetime` constructor, and the
whole extraction fails, which `none` models). -/
def parseNatList (cs : List Char) : Option Nat :=
  if pyIsDigitList cs then some (digitsToNat cs) else none

/-- Python `int` applied to a whole string token. -/
def parseNatStr (s : String) : Option Nat :=
  parseNatList s.toList

/-- Characters Python `str.split()` (no argument) treats as whitespace,
restricted to the ASCII whitespace set. -/
def pyIsSpace (c : Char) : Bool :=
  c = ' ' || c = '\t' || c = '\n' || c = '\r' || c = '\x0b' || c = '\x0c'

/-- Helper for `pySplit`: `cur` is the current token, reversed. -/
def pySplitAux (cur : List Char) : List Char → List String
  | [] => if cur.isEmpty then [] else [String.mk cur.reverse]
  | c :: rest =>
      if pyIsSpace c then
        if cur.isEmpty then pySplitAux [] rest
        else String.mk cur.reverse :: pySplitAux [] rest
      else pySplitAux (c :: cur) rest

/-- Python `str.split()` with no argument: split on runs of whitespace,
discarding empty tokens. -/
def pySplit (s : String) : List String :=
  pySplitAux [] s.toList

/-- Helper for `splitOnColon`: `cur` is the current piece, reversed. -/
def splitOnCharAux (sep : Char) (cur : List Char) : List Char → List (List Char)
  | [] => [cur.reverse]
  | c :: rest =>
      if c = sep then cur.reverse :: splitOnCharAux sep [] rest
      else splitOnCharAux sep (c :: cur) rest

/-- Python `part.split(":")`: split on every colon, keeping empty pieces. -/
def splitOnColon (cs : List Char) : List (List Char) :=
  splitOnCharAux ':' [] cs

/-! ### Calendar arithmetic (what `datetime.date`/`datetime.datetime` supply) -/

/-- Gregorian leap-year rule, as in Python's `calendar`/`datetime`. -/
def isLeapYear (y : Nat) : Bool :=
  y % 4 = 0 && (y % 100 ≠ 0 || y % 400 = 0)

/-- Number of days in month `m` (1-12) of year `y`. -/
def daysInMonth (y m : Nat) : Nat :=
  if m = 2 then (if isLeapYear y then 29 else 28)
  else if m = 4 || m = 6 || m = 9 || m = 11 then 30
  else 31

/-- Days in year `y` strictly before month `m`. -/
def daysBeforeMonth (y m : Nat) : Nat :=
  (List.range (m - 1)).foldl (fun a i => a + daysInMonth y (i + 1)) 0

/-- Proleptic-Gregorian ordinal of a date, as `datetime.date.toordinal`:
day 1 is 0001-01-01.  Date subtraction in the source is the difference of
these ordinals. -/
def toOrdinal (y m d : Nat) : Nat :=
  365 * (y - 1) + (y - 1) / 4 + (y - 1) / 400 + daysBeforeMonth y m + d
    - (y - 1) / 100

/-- Validity check performed by the `datetime.date`/`datetime.datetime`
constructors on a (year, month, day) triple. -/
def pyDateValid (y m d : Nat) : Bool :=
  1 ≤ y && y ≤ 9999 && 1 ≤ m && m ≤ 12 && 1 ≤ d && d ≤ daysInMonth y m

/-- Embedding of `datetime.date` (year, month, day). -/
structure PyDate where
  year : Nat
  month : Nat
  day : Nat
  deriving DecidableEq, Repr

/-- Embedding of the naive `datetime.datetime` values the source builds
(year, month, day, hour, minute; seconds are never used). -/
structure PyDateTime where
  year : Nat
  month : Nat
  day : Nat
  hour : Nat
  minute : Nat
  deriving DecidableEq, Repr

/-- Seconds since the Unix epoch of a UTC datetime, as produced by
`datetime.strptime(...).replace(tzinfo=utc).timestamp()` in the source.
Only meaningful for dates from 1970 on, which is all the source sees. -/
def epochSeconds (y m d hh mm : Nat) : Int :=
  ((toOrdinal y m d : Int) - (toOrdinal 1970 1 1 : Int)) * 86400
    + (hh : Int) * 3600 + (mm : Int) * 60

/-- Python `datetime.strptime(s, "%Y-%m-%d")` on a date-only string:
split on `-` into exactly year, month, day digit groups, then validate. -/
def strptimeDate (s : String) : Option PyDate :=
  match splitOnCharAux '-' [] s.toList with
  | [ys, ms, ds] => do
      let y ← parseNatList ys
      let m ← parseNatList ms
      let d ← parseNatList ds
      if pyDateValid y m d then some ⟨y, m, d⟩ else none
  | _ => none

/-- Python `datetime.strptime(s, "%H:%M")` on a time-only string. -/
def strptimeTime (s : String) : Option (Nat × Nat) :=
  match splitOnColon s.toList with
  | [hs, ms] => do
      let h ← parseNatList hs
      let m ← parseNatList ms
      if h ≤ 23 && m ≤ 59 then some (h, m) else none
  | _ => none

/-! ### Constants of `src/get.py` -/

/-- Gust threshold `GUSTS_MPH = 40` from `get.py`. -/
def GUSTS_MPH : Int := 40

/-- Pressure storage offset `PRESSURE_OFFSET = 1013` from `get.py`. -/
def PRESSURE_OFFSET : Int := 1013

/-- Retry bound `MAX_REQUEST_ATTEMPTS = 3` from `get.py`. -/
def MAX_REQUEST_ATTEMPTS : Nat := 3

/-- The `MONTHS` tuple from `get.py`: full English month names, from
`calendar.month_name[1:]`. -/
def MONTHS : List String :=
  ["January", "February", "March", "April", "May", "June", "July",
   "August", "September", "October", "November", "December"]

/-! ### `get.extract_warning_text_date` -/

/-- Returns `some (index + 1)` when the token is one of `MONTHS`,
mirroring `part in MONTHS` followed by `MONTHS.index(part) + 1`. -/
def monthIndexAux (p : String) : List String → Nat → Option Nat
  | [], _ => none
  | m :: rest, i => if p = m then some (i + 1) else monthIndexAux p rest (i + 1)

/-- One-based month number of a token, `none` when it is not a month name. -/
def monthIndex (p : String) : Option Nat :=
  monthIndexAux p MONTHS 0

/-- The source's time-token test:
`":" in part and part.replace(":", "").isdigit()`. -/
def timeTokenCheck (p : String) : Bool :=
  p.toList.contains ':' && pyIsDigitList (p.toList.filter (fun c => c ≠ ':'))

/-- Embedding of `hour, minute = map(int, part.split(":"))`: succeeds only
when the split yields exactly two nonempty digit groups; any other shape
raises in Python (unpack or `int` error), modelled by `none`. -/
def parseTimeTok (p : String) : Option (Nat × Nat) :=
  match splitOnColon p.toList with
  | [a, b] => do
      let h ← parseNatList a
      let m ← parseNatList b
      some (h, m)
  | _ => none

/-- Python `parts[i-1]`: ordinary indexing for `i ≥ 1`, and the *last*
element for `i = 0` (Python's negative indexing). -/
def prevToken (parts : List String) (i : Nat) : Option String :=
  if i = 0 then parts.getLast? else parts[i - 1]?

/-- Mutable loop state of `extract_warning_text_date`: the four variables
initialised to `None`. -/
structure WarningScan where
  hour : Option Nat
  minute : Option Nat
  month : Option Nat
  day : Option Nat
  deriving DecidableEq, Repr

/-- One iteration of the token loop of `extract_warning_text_date`:
first the time-token branch, then the month-name branch. -/
def scanStep (parts : List String) (i : Nat) (p : String) (st : WarningScan) :
    Option WarningScan := do
  let st1 ←
    if timeTokenCheck p then do
      let hm ← parseTimeTok p
      some { st with hour := some hm.1, minute := some hm.2 }
    else some st
  match monthIndex p with
  | some mi => do
      let prev ← prevToken parts i
      let d ← parseNatStr prev
      some { st1 with month := some mi, day := some d }
  | none => some st1

/-- Runs the token loop from index `i` over the remaining tokens. -/
def scanPartsAux (parts : List String) : Nat → List String → WarningScan →
    Option WarningScan
  | _, [], st => some st
  | i, p :: rest, st => do
      let st' ← scanStep parts i p st
      scanPartsAux parts (i + 1) rest st'

/-- The whole token loop of `extract_warning_text_date`. -/
def scanParts (parts : List String) : Option WarningScan :=
  scanPartsAux parts 0 parts ⟨none, none, none, none⟩

/-- Year deduction of `extract_warning_text_date`: next year exactly when
the current-year reading is more than 180 days before today, by the signed
difference `(current_date - date(current_year, month, day)).days > 180`. -/
def inferYear (today : PyDate) (m d : Nat) : Nat :=
  if (toOrdinal today.year today.month today.day : Int)
      - (toOrdinal today.year m d : Int) > 180
  then today.year + 1 else today.year

/-- Tail of `extract_warning_text_date` after the token loop: building
`dt.date(current_year, month, day)` (a `TypeError` when no month token was
found, a `ValueError` on an invalid date), deducing the year, and building
the final `dt.datetime` (which validates the date in the deduced year and
the hour/minute). -/
def buildWarningDate (today : PyDate) (st : WarningScan) : Option PyDateTime :=
  match st.month with
  | none => none
  | some m =>
      match st.day with
      | none => none
      | some d =>
          if pyDateValid today.year m d then
            match st.hour with
            | none => none
            | some h =>
                match st.minute with
                | none => none
                | some mi =>
                    if pyDateValid (inferYear today m d) m d
                        && h ≤ 23 && mi ≤ 59 then
                      some ⟨inferYear today m d, m, d, h, mi⟩
                    else none
          else none

/-- Embedding of `get.extract_warning_text_date`.  `dt.date.today()` is the
explicit `today` parameter; a Python exception anywhere (missing month
token, invalid date or time component, malformed time token) is `none`. -/
def extract_warning_text_date (today : PyDate) (text : String) :
    Option PyDateTime :=
  match scanParts (pySplit text) with
  | none => none
  | some st => buildWarningDate today st

/-! ### The retry loop of `get.main`

The loop `attempts = MAX_REQUEST_ATTEMPTS; while True: ...` around
`rq.get` is embedded as a recursion over a finite trace of transport
outcomes, counting the attempts made and the `time.sleep(1)` pauses. -/

/-- Outcome of one `rq.get` call: an exception, or a response carrying an
HTTP status code. -/
inductive Outcome where
  | exc (e : Nat)
  | resp (status : Nat)
  deriving DecidableEq, Repr

/-- Result of the retry loop on a finite trace: success (`break` after a
200 response), a re-raised exception, or the trace ran out with the loop
still running (the loop would keep going). -/
inductive FetchResult where
  | ok (attemptsMade sleeps : Nat)
  | raised (e : Nat) (attemptsMade sleeps : Nat)
  | stillLooping (attemptsMade sleeps : Nat)
  deriving DecidableEq, Repr

/-- Embedding of the retry loop body of `get.main`: a 200 response breaks;
a non-200 response loops again with no decrement and no sleep; an
exception decrements `attempts`, re-raises when they hit zero, and
otherwise sleeps 1 second and retries. -/
def fetchLoop (attempts made sleeps : Nat) : List Outcome → FetchResult
  | [] => .stillLooping made sleeps
  | .resp s :: rest =>
      if s = 200 then .ok (made + 1) sleeps
      else fetchLoop attempts (made + 1) sleeps rest
  | .exc e :: rest =>
      if attempts - 1 = 0 then .raised e (made + 1) sleeps
      else fetchLoop (attempts - 1) (made + 1) (sleeps + 1) rest

/-- The fetch of one location URL in `get.main`, starting from
`attempts = MAX_REQUEST_ATTEMPTS`. -/
def fetchLocation (trace : List Outcome) : FetchResult :=
  fetchLoop MAX_REQUEST_ATTEMPTS 0 0 trace

/-! ### `data.py`: the generic sqlite write primitives

Tables written through `insert_or_replace`/`insert_or_replace_many` are
embedded untyped, as sqlite sees them: rows are lists of values, a schema
gives the declared column count and the primary-key column indices.
`Database.__exit__` commits on clean exit and closes without commit (so
sqlite rolls the open transaction back) when the body raised; a raising
body therefore leaves the table exactly as it was. -/

/-- An sqlite storage value: integer, text, or NULL (REAL values never
meet arithmetic in the embedded operations, so rationals carry them). -/
inductive Val where
  | vint (i : Int)
  | vreal (q : Rat)
  | vstr (s : String)
  | vnull
  deriving DecidableEq, Repr

/-- Declared shape of a table from `data.create_missing_tables`: number of
columns and the indices of the primary-key columns. -/
structure TableSchema where
  ncols : Nat
  pkCols : List Nat
  deriving DecidableEq, Repr

/-- Schema of the `warnings` table: 8 columns
(location_id, level, weather_type, issued, start, end, time_zone_offset,
description), primary key (location_id, weather_type, issued). -/
def WARNING_SCHEMA : TableSchema := ⟨8, [0, 2, 3]⟩

/-- Schema of the `locations` table: 6 columns
(location_id, name, region, latitude, longitude, last_updated),
primary key location_id. -/
def LOCATION_SCHEMA : TableSchema := ⟨6, [0]⟩

/-- Two rows agree on every primary-key column. -/
def samePk (schema : TableSchema) (r1 r2 : List Val) : Bool :=
  schema.pkCols.all (fun i => r1[i]? = r2[i]?)

/-- One `cursor.execute("INSERT OR REPLACE INTO ...")`: sqlite raises
(`none`) when the value count differs from the declared column count;
otherwise any row with the same primary key is replaced. -/
def sqlInsertOrReplace (schema : TableSchema) (rows : List (List Val))
    (vals : List Val) : Option (List (List Val)) :=
  if vals.length = schema.ncols then
    some ((rows.filter (fun r => !samePk schema r vals)) ++ [vals])
  else none

/-- The statement loop inside `data.insert_or_replace_many`, before the
commit decision: `none` when some statement raised. -/
def sqlInsertMany (schema : TableSchema) (rows : List (List Val)) :
    List (List Val) → Option (List (List Val))
  | [] => some rows
  | r :: rs => do
      let rows' ← sqlInsertOrReplace schema rows r
      sqlInsertMany schema rows' rs

/-- Embedding of `data.insert_or_replace_many` including the
`Database.__exit__` transaction semantics: commit the new table state on
success, keep the prior state on any raised statement. -/
def insert_or_replace_many (schema : TableSchema) (rows : List (List Val))
    (records : List (List Val)) : List (List Val) :=
  match sqlInsertMany schema rows records with
  | some rows' => rows'
  | none => rows

/-! ### `data.py`: the `locations` table, typed

The location operations (`update_location`, `last_updated_changed`) are
embedded over typed rows of the 6-column `locations` table. -/

/-- A row of the `locations` table. -/
structure LocationRow where
  location_id : Int
  name : String
  region : String
  latitude : Rat
  longitude : Rat
  last_updated : Option String
  deriving DecidableEq, Repr

/-- The `SELECT EXISTS (...)` test of `data.update_location`. -/
def locationExists (t : List LocationRow) (id : Int) : Bool :=
  t.any (fun r => r.location_id = id)

/-- Row lookup by location id (`SELECT ... WHERE location_id=?`). -/
def findLocation (t : List LocationRow) (id : Int) : Option LocationRow :=
  t.find? (fun r => r.location_id = id)

/-- Typed `INSERT OR REPLACE` into `locations`. -/
def insertOrReplaceLocation (t : List LocationRow) (row : LocationRow) :
    List LocationRow :=
  (t.filter (fun r => !(r.location_id = row.location_id))) ++ [row]

/-- Embedding of `data.update_location`: when a row with the id exists,
`UPDATE` name/region/latitude/longitude in place; otherwise insert a new
row whose `last_updated` is NULL. -/
def update_location (t : List LocationRow) (id : Int) (name region : String)
    (latitude longitude : Rat) : List LocationRow :=
  if locationExists t id then
    t.map (fun r =>
      if r.location_id = id then
        { r with name := name, region := region,
                 latitude := latitude, longitude := longitude }
      else r)
  else
    insertOrReplaceLocation t ⟨id, name, region, latitude, longitude, none⟩

/-- Embedding of `data.last_updated_changed`.  When no row with the id
exists, `fetchone()` yields `None` and `None[0]` raises (`none`).
Otherwise the result is the changed flag and the table after the
conditional `UPDATE` of the watermark. -/
def last_updated_changed (t : List LocationRow) (id : Int)
    (last_updated : String) : Option (Bool × List LocationRow) :=
  match findLocation t id with
  | none => none
  | some r =>
      let changed : Bool := !(r.last_updated = some last_updated)
      let t' :=
        if changed then
          t.map (fun row =>
            if row.location_id = id then
              { row with last_updated := some last_updated }
            else row)
        else t
      some (changed, t')

/-! ### `get.process_json_data`: the extractor

The JSON payload is embedded structurally.  `get.py`'s category enums
(`Visibility`, `WeatherType`) are plain `enum.Enum` classes: a member is
a distinct object carrying a `.value`, and Python `==` between a member
and a plain integer is always false (these are not `IntEnum`s).  The
display dictionaries are therefore embedded as association lists keyed
by member, and a lookup with an integer key never finds anything. -/

/-- A member of the `get.Visibility` enum, wrapping its `.value`.  A
plain `enum.Enum` member never compares equal to an integer, whatever
its value. -/
structure Visibility where
  value : Nat
  deriving DecidableEq, Repr

/-- The `VISIBILITIES` dict of `get.py`: display string to `Visibility`
enum member. -/
def VISIBILITIES : List (String × Visibility) :=
  [("Very Poor", ⟨0⟩), ("Poor", ⟨1⟩), ("Moderate", ⟨2⟩), ("Good", ⟨3⟩),
   ("Very Good", ⟨4⟩), ("Excellent", ⟨5⟩)]

/-- The lookup-then-project `VISIBILITIES[report["visibility"]].value`
performed by `process_json_data` on the write path; a missing display
string raises (`none`). -/
def visibilityCode (s : String) : Option Nat :=
  (VISIBILITIES.find? (fun p => p.1 = s)).map (fun p => p.2.value)

/-- The `VISIBILITIES_REVERSED` dict comprehension of `get.py`,
`{value: key for key, value in VISIBILITIES.items()}`: its keys are the
`Visibility` enum members themselves, not their integer `.value`s. -/
def VISIBILITIES_REVERSED : List (Visibility × String) :=
  VISIBILITIES.map (fun p => (p.2, p.1))

/-- Python `==` between an integer read back from the database and a
`Visibility` enum member: always false, since `Visibility` is a plain
`enum.Enum`, so a member-keyed dict never contains an integer key. -/
def pyIntEqVisibility (_ : Int) (_ : Visibility) : Bool := false

/-- The dict lookup `get.VISIBILITIES_REVERSED[record[8]]` performed by
`data.get_future_weather` with the stored integer code: no key of the
member-keyed dict equals an integer, so the lookup always raises
`KeyError` (`none`). -/
def visibilityDisplayOfInt (v : Int) : Option String :=
  (VISIBILITIES_REVERSED.find? (fun p => pyIntEqVisibility v p.1)).map
    Prod.snd

/-- A member of the `get.WeatherType` enum, wrapping its `.value`; like
`Visibility`, a plain `enum.Enum` member that never equals an integer. -/
structure WeatherType where
  value : Nat
  deriving DecidableEq, Repr

/-- The `WEATHER_TYPES` dict of `get.py`, keyed by the `WeatherType`
enum members (note values 4 and anything ≥ 31 have no member). -/
def WEATHER_TYPES : List (WeatherType × String) :=
  [(⟨0⟩, "Clear Sky"), (⟨1⟩, "Sunshine"), (⟨2⟩, "Partly Cloudy"),
   (⟨3⟩, "Sunny Intervals"), (⟨5⟩, "Mist"), (⟨6⟩, "Fog"),
   (⟨7⟩, "Light Cloud"), (⟨8⟩, "Thick Cloud"),
   (⟨9⟩, "Light Rain Showers"), (⟨10⟩, "Light Rain Showers"),
   (⟨11⟩, "Drizzle"), (⟨12⟩, "Light Rain"), (⟨13⟩, "Heavy Rain Showers"),
   (⟨14⟩, "Heavy Rain Showers"), (⟨15⟩, "Heavy Rain"),
   (⟨16⟩, "Sleet Showers Night"), (⟨17⟩, "Sleet Showers"), (⟨18⟩, "Sleet"),
   (⟨19⟩, "Hail Showers"), (⟨20⟩, "Hail Showers"), (⟨21⟩, "Hail"),
   (⟨22⟩, "Light Snow Showers"), (⟨23⟩, "Light Snow Showers"),
   (⟨24⟩, "Light Snow"), (⟨25⟩, "Heavy Snow Showers"),
   (⟨26⟩, "Heavy Snow Showers"), (⟨27⟩, "Heavy Snow"),
   (⟨28⟩, "Thundery Showers"), (⟨29⟩, "Thundery Showers"),
   (⟨30⟩, "Thunder")]

/-- Python `==` between an integer read back from the database and a
`WeatherType` enum member: always false, as for `Visibility`. -/
def pyIntEqWeatherType (_ : Int) (_ : WeatherType) : Bool := false

/-- The dict lookup `get.WEATHER_TYPES[record[9]]` performed by
`data.get_future_weather` with the stored integer code: the dict is
keyed by enum members, so the integer key always raises `KeyError`
(`none`). -/
def weatherTypeDisplayOfInt (w : Int) : Option String :=
  (WEATHER_TYPES.find? (fun p => pyIntEqWeatherType w p.1)).map Prod.snd

/-- The `WARNING_LEVELS` mapping of `get.py` as (display string, code). -/
def WARNING_LEVELS : List (String × Nat) :=
  [("Yellow", 0), ("Amber", 1), ("Red", 2)]

/-- One element of `forecast["detailed"]["reports"]` with the fields the
source reads. -/
structure HourlyReport where
  localDate : String
  timeslot : String
  temperatureC : Int
  feelsLikeTemperatureC : Int
  windSpeedMph : Int
  gustSpeedMph : Int
  windDirection : String
  humidity : Int
  precipitationProbabilityInPercent : Int
  pressure : Int
  visibility : String
  weatherType : Int
  deriving DecidableEq, Repr

/-- The `forecast["summary"]["report"]` fields the source reads
(pollution and pollen may be JSON null). -/
structure DayReport where
  localDate : String
  maxTempC : Int
  minTempC : Int
  sunrise : String
  sunset : String
  uvIndex : Int
  pollutionIndex : Option Int
  pollenIndex : Option Int
  deriving DecidableEq, Repr

/-- One element of `json_data["forecasts"]`. -/
structure Forecast where
  reports : List HourlyReport
  summary : DayReport
  deriving DecidableEq, Repr

/-- The parts of the embedded JSON payload `process_json_data` consumes.
The UTC offset is the signed seconds already extracted from
`issueDate` via `utcoffset()` (days*86400 + seconds). -/
structure ForecastJson where
  issueOffsetSeconds : Int
  forecasts : List Forecast
  deriving DecidableEq, Repr

/-- A typed row of the `weather_times` table, in column order. -/
structure TimeRow where
  location_id : Int
  timestamp : Int
  time_zone_offset : Int
  temperature : Int
  feels_like_temperature : Int
  wind_speed : Int
  wind_direction : String
  humidity : Int
  precipitation_odds : Int
  pressure : Int
  visibility : Nat
  weather_type : Int
  deriving DecidableEq, Repr

/-- A typed row of the `daily_conditions` table, in column order. -/
structure DayRow where
  location_id : Int
  timestamp : Int
  time_zone_offset : Int
  max_temperature : Int
  min_temperature : Int
  sunrise : String
  sunset : String
  uv : Int
  pollution : Option Int
  pollen : Option Int
  deriving DecidableEq, Repr

/-- Timestamp of `strptime(localDate + " " + timeslot, "%Y-%m-%d %H:%M")`
taken as UTC. -/
def reportTimestamp (localDate timeslot : String) : Option Int := do
  let d ← strptimeDate localDate
  let hm ← strptimeTime timeslot
  some (epochSeconds d.year d.month d.day hm.1 hm.2)

/-- The hourly record built inside `process_json_data`, including the
wind-speed selection (`windSpeedMph if gustSpeedMph < GUSTS_MPH else
gustSpeedMph`) and the pressure offset subtraction. -/
def mkTimeRecord (location_id : Int) (tzOffset : Int) (r : HourlyReport) :
    Option TimeRow := do
  let ts ← reportTimestamp r.localDate r.timeslot
  let vis ← visibilityCode r.visibility
  some ⟨location_id, ts, tzOffset, r.temperatureC, r.feelsLikeTemperatureC,
        (if r.gustSpeedMph < GUSTS_MPH then r.windSpeedMph
         else r.gustSpeedMph),
        r.windDirection, r.humidity, r.precipitationProbabilityInPercent,
        r.pressure - PRESSURE_OFFSET, vis, r.weatherType⟩

/-- The daily record built inside `process_json_data` for a non-first
forecast entry (`strptime(localDate, "%Y-%m-%d")` at midnight UTC). -/
def mkDayRecord (location_id : Int) (tzOffset : Int) (d : DayReport) :
    Option DayRow := do
  let date ← strptimeDate d.localDate
  some ⟨location_id, epochSeconds date.year date.month date.day 0 0, tzOffset,
        d.maxTempC, d.minTempC, d.sunrise, d.sunset, d.uvIndex,
        d.pollutionIndex, d.pollenIndex⟩

/-- The `enumerate(json_data["forecasts"])` loop of `process_json_data`:
hourly records from every entry, daily records from every entry except
index 0 (`if i == 0: continue`); any malformed report aborts the whole
call (`none`), so nothing is written. -/
def processForecastsAux (location_id tzOffset : Int) :
    Nat → List Forecast → Option (List TimeRow × List DayRow)
  | _, [] => some ([], [])
  | i, f :: rest => do
      let hr ← f.reports.mapM (mkTimeRecord location_id tzOffset)
      if i = 0 then do
        let (hs, ds) ← processForecastsAux location_id tzOffset (i + 1) rest
        some (hr ++ hs, ds)
      else do
        let d ← mkDayRecord location_id tzOffset f.summary
        let (hs, ds) ← processForecastsAux location_id tzOffset (i + 1) rest
        some (hr ++ hs, d :: ds)

/-- Embedding of `get.process_json_data`: the two record batches handed to
`insert_or_replace_many`. -/
def process_json_data (location_id : Int) (j : ForecastJson) :
    Option (List TimeRow × List DayRow) :=
  processForecastsAux location_id j.issueOffsetSeconds 0 j.forecasts

/-! ### `data.py`: read-side queries -/

/-- The typed record `data.get_future_weather` builds from a row
(`dt.datetime.utcfromtimestamp` is kept as the raw timestamp). -/
structure WeatherInfo where
  date_time : Int
  temperature : Int
  feels_like_temperature : Int
  wind_speed : Int
  wind_direction : String
  humidity : Int
  precipitation_odds : Int
  pressure : Int
  visibility : String
  weather_type : String
  deriving DecidableEq, Repr

/-- Insertion step for `ORDER BY timestamp ASC`. -/
def insertByTimestamp (r : TimeRow) : List TimeRow → List TimeRow
  | [] => [r]
  | x :: xs =>
      if r.timestamp ≤ x.timestamp then r :: x :: xs
      else x :: insertByTimestamp r xs

/-- Sorting by ascending timestamp (`ORDER BY timestamp ASC`). -/
def sortByTimestamp : List TimeRow → List TimeRow
  | [] => []
  | x :: xs => insertByTimestamp x (sortByTimestamp xs)

/-- The decoding of one selected row inside `data.get_future_weather`'s
list comprehension: the two display lookups index the enum-member-keyed
dicts with the stored integers (`record[8]`, `record[9]`), so both raise
`KeyError`; the pressure column (`record[7]`) would be passed through
unchanged. -/
def weatherInfoOfRow (r : TimeRow) : Option WeatherInfo := do
  let vis ← visibilityDisplayOfInt (r.visibility : Int)
  let wt ← weatherTypeDisplayOfInt r.weather_type
  some ⟨r.timestamp, r.temperature, r.feels_like_temperature, r.wind_speed,
        r.wind_direction, r.humidity, r.precipitation_odds, r.pressure,
        vis, wt⟩

/-- Embedding of `data.get_future_weather`: rows of the location whose
offset-corrected timestamp is in the future, ordered by timestamp,
limited to `hours` rows, decoded by `weatherInfoOfRow`; `time.time()` is
the explicit `now`.  Because the display dicts are keyed by enum members
while the stored codes are integers, the decoding raises on every
selected row, so the call raises (`none`) whenever any row is selected. -/
def get_future_weather (now : Int) (location_id : Int) (hours : Nat)
    (table : List TimeRow) : Option (List WeatherInfo) :=
  let recs := sortByTimestamp (table.filter
    (fun r => r.location_id = location_id ∧ r.timestamp - r.time_zone_offset > now))
  (recs.take hours).mapM weatherInfoOfRow

/-- A typed row of the `warnings` table, in column order. -/
structure WarningRow where
  location_id : Int
  level : Int
  weather_type : String
  issued : Int
  start : Int
  endTime : Int
  time_zone_offset : Int
  description : String
  deriving DecidableEq, Repr

/-- The record `data.get_future_warnings` builds from a row. -/
structure WarningInfo where
  level : String
  weather_type : String
  issued : Int
  start : Int
  endTime : Int
  description : String
  active : Bool
  deriving DecidableEq, Repr

/-- Modelled from the spec: `data.get_future_warnings` reads
`get.WARNINGS_REVERSED`, which no file under `src/` defines (only the
forward `WARNING_LEVELS` mapping exists); per the spec's two-way
level mapping it is modelled as the code-to-name reverse of
`WARNING_LEVELS`. -/
def WARNINGS_REVERSED (code : Int) : Option String :=
  (WARNING_LEVELS.find? (fun p => (p.2 : Int) = code)).map Prod.fst

/-- Ordering test for `ORDER BY level DESC, issued ASC`. -/
def warningBefore (a b : WarningRow) : Bool :=
  b.level < a.level || (a.level = b.level && a.issued ≤ b.issued)

/-- Insertion step for the warning ordering. -/
def insertWarning (r : WarningRow) : List WarningRow → List WarningRow
  | [] => [r]
  | x :: xs => if warningBefore r x then r :: x :: xs else x :: insertWarning r xs

/-- Sorting warnings by severity descending, then issued ascending. -/
def sortWarnings : List WarningRow → List WarningRow
  | [] => []
  | x :: xs => insertWarning x (sortWarnings xs)

/-- Embedding of `data.get_future_warnings`: warnings of the location
whose offset-corrected end is still in the future, ordered by level
descending then issued ascending, decoded with
`active := current_timestamp >= start - time_zone_offset`. -/
def get_future_warnings (now : Int) (location_id : Int)
    (table : List WarningRow) : Option (List WarningInfo) :=
  let recs := sortWarnings (table.filter
    (fun w => w.location_id = location_id ∧ w.endTime - w.time_zone_offset > now))
  recs.mapM (fun w => do
    let lv ← WARNINGS_REVERSED w.level
    some ⟨lv, w.weather_type, w.issued, w.start, w.endTime, w.description,
          decide (now ≥ w.start - w.time_zone_offset)⟩)

/-- The warning record tuple built by `get.add_weather_warnings`
(location_id, level, weather_type, issued, start, end, description) —
seven values, with timestamps as integers. -/
def warningRecord (location_id level : Int) (weather_type : String)
    (issued start endTime : Int) (description : String) : List Val :=
  [.vint location_id, .vint level, .vstr weather_type, .vint issued,
   .vint start, .vint endTime, .vstr description]

/-! ### Helper lemmas -/

/-- Non-200 responses pass through the retry loop without consuming the
attempt budget or sleeping. -/
lemma fetchLoop_replicate_resp (k : Nat) (s : Nat) (hs : s ≠ 200)
    (attempts made sleeps : Nat) (t : List Outcome) :
    fetchLoop attempts made sleeps (List.replicate k (.resp s) ++ t)
      = fetchLoop attempts (made + k) sleeps t := by
  induction k generalizing made with
  | zero => simp
  | succ n ih =>
      rw [List.replicate_succ, List.cons_append]
      show (if s = 200 then FetchResult.ok (made + 1) sleeps
            else fetchLoop attempts (made + 1) sleeps
              (List.replicate n (.resp s) ++ t)) = _
      rw [if_neg hs, ih (made + 1)]
      congr 1
      omega

/-! ### Claim C1 -/

/-- Claim C1, as stated, is false on the code: with a transport that
returns non-200 responses four times and then a 200, the fetch of
`get.main` succeeds after five attempts with no pause — the non-200
branch neither consumes the 3-attempt budget nor sleeps, so a 4th (and
5th) attempt is made and nothing is raised. -/
theorem C1_counterexample :
    fetchLocation [.resp 404, .resp 404, .resp 404, .resp 404, .resp 200]
        = .ok 5 0
      ∧ MAX_REQUEST_ATTEMPTS < 5 := by
  constructor
  · rfl
  · decide

/-- Claim C1 (amended): only transport-level failures are retried against
the bound of `MAX_REQUEST_ATTEMPTS = 3`, with a 1-second pause between
failed attempts; non-200 responses are retried indefinitely without pause
and without consuming the bound.  After any number of non-200 responses,
three consecutive transport failures raise the third failure with exactly
those `k + 3` attempts made and two pauses — the rest of the trace is
never consulted, so no further attempt follows the raise. -/
theorem C1_retry_exhaustion (k s : Nat) (hs : s ≠ 200) (e1 e2 e3 : Nat)
    (rest : List Outcome) :
    fetchLocation (List.replicate k (.resp s)
        ++ ([.exc e1, .exc e2, .exc e3] ++ rest))
      = .raised e3 (k + 3) 2 := by
  unfold fetchLocation
  rw [fetchLoop_replicate_resp k s hs]
  show fetchLoop 3 (0 + k) 0 (.exc e1 :: .exc e2 :: .exc e3 :: rest) = _
  show (if 3 - 1 = 0 then FetchResult.raised e1 (0 + k + 1) 0
        else fetchLoop (3 - 1) (0 + k + 1) (0 + 1)
          (.exc e2 :: .exc e3 :: rest)) = _
  rw [if_neg (by decide)]
  show (if 2 - 1 = 0 then FetchResult.raised e2 (0 + k + 1 + 1) 1
        else fetchLoop (2 - 1) (0 + k + 1 + 1) (1 + 1)
          (.exc e3 :: rest)) = _
  rw [if_neg (by decide)]
  show (if 1 - 1 = 0 then FetchResult.raised e3 (0 + k + 1 + 1 + 1) 2
        else fetchLoop (1 - 1) (0 + k + 1 + 1 + 1) (2 + 1) rest) = _
  rw [if_pos (by decide)]
  congr 1
  omega

/-- Witness for C1: a concrete trace with one non-200 response, then
three transport failures, then an available 200 that is never reached. -/
theorem C1_retry_exhaustion_witness :
    (503 : Nat) ≠ 200 ∧
      fetchLocation [.resp 503, .exc 11, .exc 12, .exc 13, .resp 200]
        = .raised 13 4 2 :=
  ⟨by decide,
    C1_retry_exhaustion 1 503 (by decide) 11 12 13 [.resp 200]⟩

/-! ### Claim C8 -/

/-- Claim C8: the wind speed stored in an hourly record equals the gust
speed when the gust speed is at least the `GUSTS_MPH = 40` threshold, and
the sustained wind speed otherwise. -/
theorem C8_wind_speed_selection (location_id tzOffset : Int)
    (r : HourlyReport) (row : TimeRow)
    (h : mkTimeRecord location_id tzOffset r = some row) :
    row.wind_speed =
      if GUSTS_MPH ≤ r.gustSpeedMph then r.gustSpeedMph
      else r.windSpeedMph := by
  unfold mkTimeRecord at h
  cases hts : reportTimestamp r.localDate r.timeslot with
  | none => rw [hts] at h; exact Option.noConfusion h
  | some ts =>
      rw [hts] at h
      cases hv : visibilityCode r.visibility with
      | none => rw [hv] at h; exact Option.noConfusion h
      | some vis =>
          rw [hv] at h
          have h2 := Option.some.inj h
          subst h2
          rcases lt_or_le r.gustSpeedMph GUSTS_MPH with hlt | hle
          · rw [if_pos hlt, if_neg (by omega)]
          · rw [if_neg (by omega), if_pos hle]

/-- A concrete hourly report with gust 40 and sustained 10. -/
def exReport40 : HourlyReport :=
  ⟨"2024-10-03", "14:00", 12, 11, 10, 40, "SW", 80, 15, 1020, "Good", 15⟩

/-- A concrete hourly report with gust 39 and sustained 10. -/
def exReport39 : HourlyReport :=
  ⟨"2024-10-03", "14:00", 12, 11, 10, 39, "SW", 80, 15, 1020, "Good", 15⟩

/-- The record `process_json_data` builds from `exReport40`. -/
def exRow40 : TimeRow :=
  ⟨1, 1727964000, 0, 12, 11, 40, "SW", 80, 15, 7, 3, 15⟩

/-- The record `process_json_data` builds from `exReport39`. -/
def exRow39 : TimeRow :=
  ⟨1, 1727964000, 0, 12, 11, 10, "SW", 80, 15, 7, 3, 15⟩

/-- Witness for C8 at the spec's two test points: gust=40, sustained=10
stores 40; gust=39, sustained=10 stores 10. -/
theorem C8_wind_speed_selection_witness :
    (mkTimeRecord 1 0 exReport40 = some exRow40
      ∧ exRow40.wind_speed = 40)
    ∧ (mkTimeRecord 1 0 exReport39 = some exRow39
      ∧ exRow39.wind_speed = 10) :=
  ⟨⟨by decide,
    (C8_wind_speed_selection 1 0 exReport40 exRow40 (by decide)).trans
      (by decide)⟩,
   ⟨by decide,
    (C8_wind_speed_selection 1 0 exReport39 exRow39 (by decide)).trans
      (by decide)⟩⟩

/-! ### Claim C9 -/

/-- Unfolding equation of the forecast loop at index 0: hourly records
are captured, the daily record is skipped. -/
lemma processForecastsAux_cons_zero (location_id tzOffset : Int)
    (f : Forecast) (rest : List Forecast) :
    processForecastsAux location_id tzOffset 0 (f :: rest)
      = Option.bind (f.reports.mapM (mkTimeRecord location_id tzOffset))
          (fun hr =>
            Option.bind (processForecastsAux location_id tzOffset 1 rest)
              (fun p => some (hr ++ p.1, p.2))) := rfl

/-- Unfolding equation of the forecast loop at a positive index: both the
hourly records and the daily record are captured. -/
lemma processForecastsAux_cons_succ (location_id tzOffset : Int) (i : Nat)
    (f : Forecast) (rest : List Forecast) :
    processForecastsAux location_id tzOffset (i + 1) (f :: rest)
      = Option.bind (f.reports.mapM (mkTimeRecord location_id tzOffset))
          (fun hr =>
            Option.bind (mkDayRecord location_id tzOffset f.summary)
              (fun d =>
                Option.bind
                  (processForecastsAux location_id tzOffset (i + 2) rest)
                  (fun p => some (hr ++ p.1, d :: p.2)))) := rfl

/-- Daily-record count of the forecast loop, for any starting index. -/
lemma processForecastsAux_day_length (location_id tzOffset : Int)
    (fs : List Forecast) :
    ∀ (i : Nat) (tr : List TimeRow) (dr : List DayRow),
      processForecastsAux location_id tzOffset i fs = some (tr, dr) →
      dr.length = if i = 0 then fs.length - 1 else fs.length := by
  induction fs with
  | nil =>
      intro i tr dr h
      have h2 := congrArg (fun p => Prod.snd <$> p) h
      simp only [Option.map_some] at h2
      have h3 : ([] : List DayRow) = dr := Option.some.inj h2
      rw [← h3]
      cases i <;> simp
  | cons f rest ih =>
      intro i tr dr h
      cases i with
      | zero =>
          rw [processForecastsAux_cons_zero] at h
          cases hm : f.reports.mapM (mkTimeRecord location_id tzOffset) with
          | none => rw [hm] at h; exact Option.noConfusion h
          | some hrs =>
              rw [hm] at h
              cases hrec : processForecastsAux location_id tzOffset 1 rest with
              | none => rw [hrec] at h; exact Option.noConfusion h
              | some p =>
                  rw [hrec] at h
                  have hp := Option.some.inj h
                  have hdr : p.2 = dr := congrArg Prod.snd hp
                  have hlen := ih 1 p.1 p.2 (by rw [hrec])
                  rw [if_neg (by omega)] at hlen
                  rw [← hdr, hlen]
                  simp
      | succ n =>
          rw [processForecastsAux_cons_succ] at h
          cases hm : f.reports.mapM (mkTimeRecord location_id tzOffset) with
          | none => rw [hm] at h; exact Option.noConfusion h
          | some hrs =>
              rw [hm] at h
              cases hd : mkDayRecord location_id tzOffset f.summary with
              | none => rw [hd] at h; exact Option.noConfusion h
              | some d =>
                  rw [hd] at h
                  cases hrec :
                      processForecastsAux location_id tzOffset (n + 2) rest with
                  | none => rw [hrec] at h; exact Option.noConfusion h
                  | some p =>
                      rw [hrec] at h
                      have hp := Option.some.inj h
                      have hdr : d :: p.2 = dr := congrArg Prod.snd hp
                      have hlen := ih (n + 2) p.1 p.2 (by rw [hrec])
                      rw [if_neg (by omega)] at hlen
                      rw [← hdr, List.length_cons, hlen]
                      simp

/-- Claim C9: extraction always skips the first forecast entry, so a
payload with N sequential day-entries yields exactly N − 1 daily-condition
records. -/
theorem C9_daily_suppression (location_id : Int) (j : ForecastJson)
    (tr : List TimeRow) (dr : List DayRow)
    (h : process_json_data location_id j = some (tr, dr)) :
    dr.length = j.forecasts.length - 1 := by
  have := processForecastsAux_day_length location_id j.issueOffsetSeconds
    j.forecasts 0 tr dr h
  rwa [if_pos rfl] at this

/-- A concrete day report for day `d` of 2024-10. -/
def exDay (d : String) : DayReport :=
  ⟨d, 15, 8, "07:12", "18:40", 2, some 3, none⟩

/-- A concrete payload with three sequential day-entries and no hourly
reports. -/
def exJson3 : ForecastJson :=
  ⟨3600,
   [⟨[], exDay "2024-10-03"⟩, ⟨[], exDay "2024-10-04"⟩,
    ⟨[], exDay "2024-10-05"⟩]⟩

/-- Witness for C9: three day-entries yield exactly two daily records. -/
theorem C9_daily_suppression_witness :
    ∃ tr dr, process_json_data 1 exJson3 = some (tr, dr)
      ∧ dr.length = 3 - 1 := by
  obtain ⟨tr, dr, h⟩ :
      ∃ tr dr, process_json_data 1 exJson3 = some (tr, dr) := ⟨_, _, rfl⟩
  refine ⟨tr, dr, h, ?_⟩
  have := C9_daily_suppression 1 exJson3 tr dr h
  simpa [exJson3] using this

/-! ### Shared lemmas on the `locations` table -/

/-- Lookup after a conditional in-place update that keeps ids: the found
row is the updated one. -/
lemma findLocation_map_update (t : List LocationRow) (id : Int)
    (upd : LocationRow → LocationRow)
    (hid : ∀ r, (upd r).location_id = r.location_id) :
    findLocation
        (t.map (fun r => if r.location_id = id then upd r else r)) id
      = (findLocation t id).map upd := by
  induction t with
  | nil => rfl
  | cons r rest ih =>
      by_cases hr : r.location_id = id
      · unfold findLocation at *
        rw [List.map_cons, List.find?_cons_of_pos, List.find?_cons_of_pos]
        · rw [if_pos hr]
          rfl
        · simpa using hr
        · rw [if_pos hr]
          simpa using (hid r).trans hr
      · unfold findLocation at *
        rw [List.map_cons, List.find?_cons_of_neg, List.find?_cons_of_neg]
        · exact ih
        · simpa using hr
        · rw [if_neg hr]
          simpa using hr

/-- Lookup of a different id is unaffected by the conditional update. -/
lemma findLocation_map_update_ne (t : List LocationRow) (id j : Int)
    (upd : LocationRow → LocationRow)
    (hid : ∀ r, (upd r).location_id = r.location_id) (hne : j ≠ id) :
    findLocation
        (t.map (fun r => if r.location_id = id then upd r else r)) j
      = findLocation t j := by
  induction t with
  | nil => rfl
  | cons r rest ih =>
      by_cases hr : r.location_id = j
      · unfold findLocation at *
        rw [List.map_cons, List.find?_cons_of_pos, List.find?_cons_of_pos]
        · rw [if_neg (by rw [hr]; exact hne)]
        · simpa using hr
        · rw [if_neg (by rw [hr]; exact hne)]
          simpa using hr
      · unfold findLocation at *
        rw [List.map_cons, List.find?_cons_of_neg, List.find?_cons_of_neg]
        · exact ih
        · simpa using hr
        · by_cases hr2 : r.location_id = id
          · rw [if_pos hr2]
            simp [hid r, hr]
          · rw [if_neg hr2]
            simpa using hr

/-- A failed lookup means the existence test is false. -/
lemma locationExists_eq_false (t : List LocationRow) (id : Int)
    (h : findLocation t id = none) : locationExists t id = false := by
  unfold findLocation at h
  rw [List.find?_eq_none] at h
  unfold locationExists
  rw [List.any_eq_false]
  intro r hr
  simpa using h r hr

/-- A successful lookup means the existence test is true. -/
lemma locationExists_eq_true (t : List LocationRow) (id : Int)
    (r : LocationRow) (h : findLocation t id = some r) :
    locationExists t id = true := by
  unfold findLocation at h
  unfold locationExists
  rw [List.any_eq_true]
  have hp := List.find?_some h
  exact ⟨r, List.mem_of_find?_eq_some h, by simpa using hp⟩

/-- With no row of the given id present, the replace filter removes
nothing. -/
lemma filter_eq_self_of_findLocation_none (t : List LocationRow) (id : Int)
    (h : findLocation t id = none) :
    t.filter (fun r => !(r.location_id = id)) = t := by
  unfold findLocation at h
  rw [List.find?_eq_none] at h
  rw [List.filter_eq_self]
  intro r hr
  simpa using h r hr

/-! ### Claim C2 -/

/-- Claim C2: `data.update_location` on a stored location updates name,
region, latitude and longitude, leaves the last-updated watermark of that
row unchanged, leaves every other id's lookup unchanged, and on a
location with no stored row appends a fresh row with a NULL watermark. -/
theorem C2_update_location (t : List LocationRow) (id : Int)
    (name region : String) (latitude longitude : Rat) :
    (∀ r, findLocation t id = some r →
      findLocation (update_location t id name region latitude longitude) id
          = some { r with name := name, region := region,
                          latitude := latitude, longitude := longitude }
        ∧ ∀ j, j ≠ id →
            findLocation (update_location t id name region latitude longitude) j
              = findLocation t j)
    ∧ (findLocation t id = none →
        update_location t id name region latitude longitude
          = t ++ [⟨id, name, region, latitude, longitude, none⟩]) := by
  constructor
  · intro r hr
    have hex := locationExists_eq_true t id r hr
    unfold update_location
    rw [hex, if_pos rfl]
    constructor
    · rw [findLocation_map_update t id
        (fun r => { r with name := name, region := region,
                           latitude := latitude, longitude := longitude })
        (fun _ => rfl), hr]
      rfl
    · intro j hj
      exact findLocation_map_update_ne t id j
        (fun r => { r with name := name, region := region,
                           latitude := latitude, longitude := longitude })
        (fun _ => rfl) hj
  · intro hnone
    have hex := locationExists_eq_false t id hnone
    unfold update_location
    rw [hex]
    simp only [Bool.false_eq_true, if_false]
    unfold insertOrReplaceLocation
    rw [filter_eq_self_of_findLocation_none t id hnone]

/-- A concrete stored `locations` table with two rows. -/
def exLocations : List LocationRow :=
  [⟨2643743, "London", "Greater London", 52, 0,
    some "2024-11-20T06:00:00"⟩,
   ⟨2988507, "Paris", "Ile-de-France", 49, 2, none⟩]

/-- Witness for C2: updating London's details keeps its watermark and
leaves Paris alone; upserting an unknown id appends a NULL-watermark
row. -/
theorem C2_update_location_witness :
    (findLocation
        (update_location exLocations 2643743 "London2" "GL" 51 0) 2643743
      = some ⟨2643743, "London2", "GL", 51, 0, some "2024-11-20T06:00:00"⟩)
    ∧ (update_location exLocations 5 "X" "Y" 1 2
      = exLocations ++ [⟨5, "X", "Y", 1, 2, none⟩]) := by
  constructor
  · exact ((C2_update_location exLocations 2643743 "London2" "GL" 51 0).1
      ⟨2643743, "London", "Greater London", 52, 0,
        some "2024-11-20T06:00:00"⟩ (by decide)).1
  · exact (C2_update_location exLocations 5 "X" "Y" 1 2).2 (by decide)

/-! ### Claim C3 -/

/-- Claim C3: for a stored location row, `data.last_updated_changed`
returns true exactly when the observed watermark differs by value
equality from the stored one (a NULL stored watermark always counts as
changed), persists the observed watermark only on a change (the table is
untouched otherwise), leaves the stored watermark equal to the observed
one after the call, and a second call with the same observed value
returns false without further change. -/
theorem C3_last_updated_changed (t : List LocationRow) (id : Int)
    (lu : String) (r : LocationRow) (h : findLocation t id = some r) :
    ∃ t', last_updated_changed t id lu
        = some (!(r.last_updated = some lu), t')
      ∧ (∃ r', findLocation t' id = some r' ∧ r'.last_updated = some lu)
      ∧ (r.last_updated = some lu → t' = t)
      ∧ last_updated_changed t' id lu = some (false, t') := by
  by_cases hch : r.last_updated = some lu
  · refine ⟨t, ?_, ⟨r, h, hch⟩, fun _ => rfl, ?_⟩
    · unfold last_updated_changed
      rw [h]
      simp [hch]
    · unfold last_updated_changed
      rw [h]
      simp [hch]
  · have hupd := findLocation_map_update t id
      (fun row => { row with last_updated := some lu }) (fun _ => rfl)
    rw [h] at hupd
    refine ⟨t.map (fun row =>
        if row.location_id = id then { row with last_updated := some lu }
        else row), ?_, ?_, ?_, ?_⟩
    · unfold last_updated_changed
      rw [h]
      simp [hch]
    · exact ⟨{ r with last_updated := some lu }, hupd, rfl⟩
    · intro hc
      exact absurd hc hch
    · unfold last_updated_changed
      rw [hupd]
      simp

/-- Witness for C3: a first call with a fresh watermark on a NULL-stored
row reports a change and stores the value; the second call reports no
change. -/
theorem C3_last_updated_changed_witness :
    ∃ t', last_updated_changed exLocations 2988507 "2024-11-20T07:00:00"
        = some (true, t')
      ∧ last_updated_changed t' 2988507 "2024-11-20T07:00:00"
        = some (false, t') := by
  obtain ⟨t', h1, _, _, h4⟩ := C3_last_updated_changed exLocations 2988507
    "2024-11-20T07:00:00"
    ⟨2988507, "Paris", "Ile-de-France", 49, 2, none⟩ (by decide)
  exact ⟨t', by simpa using h1, h4⟩

/-! ### Claim C6 -/

/-- A batch containing a record of the wrong arity makes the statement
loop raise. -/
lemma sqlInsertMany_none_of_malformed (schema : TableSchema)
    (records : List (List Val)) (r : List Val) (hr : r ∈ records)
    (hlen : r.length ≠ schema.ncols) :
    ∀ rows, sqlInsertMany schema rows records = none := by
  induction records with
  | nil => cases hr
  | cons r0 rs ih =>
      intro rows
      show Option.bind (sqlInsertOrReplace schema rows r0)
        (fun rows' => sqlInsertMany schema rows' rs) = none
      rcases List.mem_cons.mp hr with h0 | hmem
      · subst h0
        unfold sqlInsertOrReplace
        rw [if_neg hlen]
        rfl
      · cases h0 : sqlInsertOrReplace schema rows r0 with
        | none => rfl
        | some rows' =>
            show sqlInsertMany schema rows' rs = none
            exact ih hmem rows'

/-- A row already in the table that shares a primary key with no batch
record is still present after the statement loop succeeds. -/
lemma sqlInsertMany_survives (schema : TableSchema)
    (records : List (List Val)) :
    ∀ (rows final : List (List Val)) (x : List Val), x ∈ rows →
      (∀ r ∈ records, samePk schema x r = false) →
      sqlInsertMany schema rows records = some final → x ∈ final := by
  induction records with
  | nil =>
      intro rows final x hx _ h
      cases Option.some.inj h
      exact hx
  | cons r0 rs ih =>
      intro rows final x hx hpk h
      replace h : Option.bind (sqlInsertOrReplace schema rows r0)
        (fun rows' => sqlInsertMany schema rows' rs) = some final := h
      cases h0 : sqlInsertOrReplace schema rows r0 with
      | none => rw [h0] at h; exact Option.noConfusion h
      | some rows1 =>
          rw [h0] at h
          have hx1 : x ∈ rows1 := by
            unfold sqlInsertOrReplace at h0
            by_cases hl : r0.length = schema.ncols
            · rw [if_pos hl] at h0
              cases Option.some.inj h0
              refine List.mem_append_left _ ?_
              rw [List.mem_filter]
              exact ⟨hx, by rw [hpk r0 (List.mem_cons_self _ _)]; rfl⟩
            · rw [if_neg hl] at h0
              exact Option.noConfusion h0
          exact ih rows1 final x hx1
            (fun r hr => hpk r (List.mem_cons_of_mem r0 hr)) h

/-- Every batch record ends up in the table when the statement loop
succeeds and the batch has pairwise distinct primary keys. -/
lemma sqlInsertMany_all_inserted (schema : TableSchema)
    (records : List (List Val))
    (hpk : records.Pairwise (fun a b => samePk schema a b = false)) :
    ∀ (rows final : List (List Val)),
      sqlInsertMany schema rows records = some final →
      ∀ r ∈ records, r ∈ final := by
  induction records with
  | nil =>
      intro rows final _ r hr
      cases hr
  | cons r0 rs ih =>
      intro rows final h r hr
      replace h : Option.bind (sqlInsertOrReplace schema rows r0)
        (fun rows' => sqlInsertMany schema rows' rs) = some final := h
      cases h0 : sqlInsertOrReplace schema rows r0 with
      | none => rw [h0] at h; exact Option.noConfusion h
      | some rows1 =>
          rw [h0] at h
          have hr0mem : r0 ∈ rows1 := by
            unfold sqlInsertOrReplace at h0
            by_cases hl : r0.length = schema.ncols
            · rw [if_pos hl] at h0
              cases Option.some.inj h0
              exact List.mem_append_right _ (List.mem_cons_self _ _)
            · rw [if_neg hl] at h0
              exact Option.noConfusion h0
          rcases List.mem_cons.mp hr with hcase | hmem

          · subst hcase
            exact sqlInsertMany_survives schema rs rows1 final r hr0mem
              (fun b hb => (List.pairwise_cons.mp hpk).1 b hb) h
          · exact ih (List.pairwise_cons.mp hpk).2 rows1 final h r hmem

/-- Claim C6: `data.insert_or_replace_many` is atomic per call — if any
record of the batch is malformed (wrong arity, the storage failure sqlite
reports), the prior table state is kept completely unchanged, and on a
successful batch every record (with pairwise distinct primary keys) is
visible in the committed table. -/
theorem C6_insert_many_atomic (schema : TableSchema)
    (rows records : List (List Val))
    (hpk : records.Pairwise (fun a b => samePk schema a b = false)) :
    ((∃ r ∈ records, r.length ≠ schema.ncols) →
        insert_or_replace_many schema rows records = rows)
    ∧ (∀ final, sqlInsertMany schema rows records = some final →
        insert_or_replace_many schema rows records = final
          ∧ ∀ r ∈ records, r ∈ final) := by
  constructor
  · rintro ⟨r, hr, hlen⟩
    unfold insert_or_replace_many
    rw [sqlInsertMany_none_of_malformed schema records r hr hlen rows]
  · intro final h
    refine ⟨?_, sqlInsertMany_all_inserted schema records hpk rows final h⟩
    unfold insert_or_replace_many
    rw [h]

/-- A concrete prior table state for a 2-column table with primary key
column 0. -/
def exRows2 : List (List Val) :=
  [[.vint 1, .vint 10], [.vint 2, .vint 20]]

/-- Witness for C6: a batch whose middle record is malformed leaves the
prior two rows exactly as they were, while a well-formed batch commits
with every record visible. -/
theorem C6_insert_many_atomic_witness :
    (insert_or_replace_many ⟨2, [0]⟩ exRows2
        [[.vint 1, .vint 11], [.vint 3], [.vint 4, .vint 40]] = exRows2)
    ∧ ((([.vint 1, .vint 11] : List Val)
          ∈ insert_or_replace_many ⟨2, [0]⟩ exRows2
            [[.vint 1, .vint 11], [.vint 4, .vint 40]])
        ∧ (([.vint 4, .vint 40] : List Val)
          ∈ insert_or_replace_many ⟨2, [0]⟩ exRows2
            [[.vint 1, .vint 11], [.vint 4, .vint 40]])) := by
  constructor
  · exact (C6_insert_many_atomic ⟨2, [0]⟩ exRows2
      [[.vint 1, .vint 11], [.vint 3], [.vint 4, .vint 40]] (by decide)).1
      ⟨[.vint 3], by decide, by decide⟩
  · have h := (C6_insert_many_atomic ⟨2, [0]⟩ exRows2
      [[.vint 1, .vint 11], [.vint 4, .vint 40]] (by decide)).2
      (insert_or_replace_many ⟨2, [0]⟩ exRows2
        [[.vint 1, .vint 11], [.vint 4, .vint 40]]) (by decide)
    exact ⟨h.2 _ (by decide), h.2 _ (by decide)⟩

/-! ### Claim C4 -/

/-- Claim C4 names a GMT-based offset heuristic the code does not
implement: `get.add_weather_warnings` never inspects the issued-at text
for "GMT", builds a seven-value record with no time-zone-offset field,
and hands it to `insert_or_replace_many` against the eight-column
`warnings` table, where the arity mismatch makes sqlite raise and the
transaction roll back — no warning row can ever be stored.  Evaluated
here at a concrete warning. -/
theorem C4_warning_offset_missing :
    (warningRecord 2643743 0 "thunderstorms" 1718902800 1718951400
        1718971200 "Severe thunderstorms expected.").length
      ≠ WARNING_SCHEMA.ncols
    ∧ sqlInsertMany WARNING_SCHEMA
        [[.vint 2643743, .vint 1, .vstr "rain", .vint 1718000000,
          .vint 1718003600, .vint 1718010800, .vint 3600, .vstr "Heavy rain."]]
        [warningRecord 2643743 0 "thunderstorms" 1718902800 1718951400
          1718971200 "Severe thunderstorms expected."] = none
    ∧ insert_or_replace_many WARNING_SCHEMA
        [[.vint 2643743, .vint 1, .vstr "rain", .vint 1718000000,
          .vint 1718003600, .vint 1718010800, .vint 3600, .vstr "Heavy rain."]]
        [warningRecord 2643743 0 "thunderstorms" 1718902800 1718951400
          1718971200 "Severe thunderstorms expected."]
      = [[.vint 2643743, .vint 1, .vstr "rain", .vint 1718000000,
          .vint 1718003600, .vint 1718010800, .vint 3600,
          .vstr "Heavy rain."]] := by
  exact ⟨by decide, by decide, by decide⟩

/-! ### Claim C7 -/

/-- Claim C7: a stored warning appears in the `get_future_warnings`
result with `active = true` exactly when the reference time `T` lies in
the half-open interval `[start, end)` with both endpoints corrected by
the warning's own UTC offset; a warning whose corrected end is not in the
future is not reported at all, hence never reported active. -/
theorem C7_active_warning (now : Int) (w : WarningRow) (lvName : String)
    (hlv : WARNINGS_REVERSED w.level = some lvName) :
    ∃ infos, get_future_warnings now w.location_id [w] = some infos
      ∧ ((∃ i ∈ infos, i.active = true) ↔
          (w.start - w.time_zone_offset ≤ now
            ∧ now < w.endTime - w.time_zone_offset)) := by
  unfold get_future_warnings
  by_cases hend : w.endTime - w.time_zone_offset > now
  · have hcond : decide (w.location_id = w.location_id
        ∧ w.endTime - w.time_zone_offset > now) = true := by
      simp [hend]
    rw [List.filter_cons, if_pos hcond]
    simp only [List.filter_nil]
    show ∃ infos, List.mapM _ [w] = some infos ∧ _
    rw [List.mapM_cons, List.mapM_nil]
    refine ⟨[⟨lvName, w.weather_type, w.issued, w.start, w.endTime,
      w.description, decide (now ≥ w.start - w.time_zone_offset)⟩], ?_, ?_⟩
    · rw [hlv]
      rfl
    · constructor
      · rintro ⟨i, hi, hact⟩
        rcases List.mem_singleton.mp hi with rfl
        simp only [decide_eq_true_eq] at hact
        exact ⟨by omega, hend⟩
      · rintro ⟨h1, _⟩
        refine ⟨_, List.mem_singleton.mpr rfl, ?_⟩
        simp only [decide_eq_true_eq]
        omega
  · have hcond : decide (w.location_id = w.location_id
        ∧ w.endTime - w.time_zone_offset > now) = false := by
      simp [hend]
    rw [List.filter_cons, hcond]
    simp only [Bool.false_eq_true, if_false, List.filter_nil]
    refine ⟨[], rfl, ?_⟩
    simp only [List.not_mem_nil, false_and, exists_false, false_iff]
    rintro ⟨_, h2⟩
    exact hend h2

/-- A concrete warning active around reference time 1700000000. -/
def exWarnActive : WarningRow :=
  ⟨7, 0, "wind", 1699990000, 1699996400, 1700003600, 0, "Strong winds."⟩

/-- A concrete warning that ended an hour before the reference time. -/
def exWarnOver : WarningRow :=
  ⟨7, 0, "wind", 1699980000, 1699990000, 1699996400, 0, "Strong winds."⟩

/-- Witness for C7: at T = 1700000000 a warning with start = T − 1h and
end = T + 1h is reported active, and one with end = T − 1h is not
reported active. -/
theorem C7_active_warning_witness :
    (∃ infos, get_future_warnings 1700000000 7 [exWarnActive] = some infos
      ∧ ∃ i ∈ infos, i.active = true)
    ∧ (∃ infos, get_future_warnings 1700000000 7 [exWarnOver] = some infos
      ∧ ¬ ∃ i ∈ infos, i.active = true) := by
  constructor
  · obtain ⟨infos, h1, h2⟩ :=
      C7_active_warning 1700000000 exWarnActive "Yellow" (by decide)
    exact ⟨infos, h1, h2.mpr (by decide)⟩
  · obtain ⟨infos, h1, h2⟩ :=
      C7_active_warning 1700000000 exWarnOver "Yellow" (by decide)
    refine ⟨infos, h1, fun hx => ?_⟩
    have := h2.mp hx
    revert this
    decide

/-! ### Claim C10 -/

/-- Decoding any selected row raises: the member-keyed display dicts
contain no integer key. -/
lemma weatherInfoOfRow_eq_none (r : TimeRow) : weatherInfoOfRow r = none :=
  rfl

/-- The list comprehension of `get_future_weather` returns only when it
decodes no row at all. -/
lemma mapM_weatherInfoOfRow_eq_some (l : List TimeRow)
    (infos : List WeatherInfo) (h : l.mapM weatherInfoOfRow = some infos) :
    infos = [] := by
  cases l with
  | nil => exact (Option.some.inj h).symm
  | cons r rest => exact Option.noConfusion h

/-- Claim C10 describes the write path and the intended read path, but
the code's read path raises before returning any pressure: extraction
stores source pressure minus `PRESSURE_OFFSET = 1013`, and the SELECT of
`get_future_weather` carries that column through unchanged — but the
comprehension indexes the enum-member-keyed `VISIBILITIES_REVERSED` and
`WEATHER_TYPES` dicts with the stored integers, which equal no key, so
every selected row raises `KeyError`: whenever the query returns at all
it has selected no row, and at the concrete failing input (a stored row
built from a report with pressure 1020, queried while in the future) the
query raises instead of returning the stored pressure 7. -/
theorem C10_pressure_read_path_raises :
    (∀ (now location_id : Int) (hours : Nat) (table : List TimeRow)
        (infos : List WeatherInfo),
      get_future_weather now location_id hours table = some infos →
        infos = [])
    ∧ mkTimeRecord 1 0 exReport40 = some exRow40
    ∧ exRow40.pressure = 1020 - PRESSURE_OFFSET
    ∧ get_future_weather 0 1 1 [exRow40] = none := by
  refine ⟨?_, by decide, by decide, by decide⟩
  intro now location_id hours rows infos h
  exact mapM_weatherInfoOfRow_eq_some _ infos h

/-- Witness for C10's universal part at a concrete input: the only way
the query returns is with no rows selected (here, an empty table). -/
theorem C10_pressure_read_path_raises_witness :
    get_future_weather 0 1 1 ([] : List TimeRow) = some []
      ∧ ([] : List WeatherInfo) = [] :=
  ⟨rfl, C10_pressure_read_path_raises.1 0 1 1 [] [] rfl⟩

/-! ### Claim C5 -/

/-- A token that is neither a time token nor a month name leaves the scan
state unchanged. -/
lemma scanStep_skip (parts : List String) (i : Nat) (p : String)
    (st : WarningScan) (h1 : timeTokenCheck p = false)
    (h2 : monthIndex p = none) : scanStep parts i p st = some st := by
  unfold scanStep
  rw [h1, h2]
  rfl

/-- A month-name token records the month and reads the day from the
preceding token. -/
lemma scanStep_month (parts : List String) (i : Nat) (p : String)
    (st : WarningScan) (m d : Nat) (prev : String)
    (h1 : timeTokenCheck p = false) (h2 : monthIndex p = some m)
    (h3 : prevToken parts i = some prev) (h4 : parseNatStr prev = some d) :
    scanStep parts i p st
      = some { st with month := some m, day := some d } := by
  unfold scanStep
  rw [h1, h2, h3]
  show Option.bind (parseNatStr prev) _ = _
  rw [h4]
  rfl

/-- A well-formed time token records hour and minute. -/
lemma scanStep_time (parts : List String) (i : Nat) (p : String)
    (st : WarningScan) (hh mm : Nat)
    (h1 : timeTokenCheck p = true) (h2 : parseTimeTok p = some (hh, mm))
    (h3 : monthIndex p = none) :
    scanStep parts i p st
      = some { st with hour := some hh, minute := some mm } := by
  unfold scanStep
  rw [h1, h2, h3]
  rfl

/-- Unfolding equation of the token loop. -/
lemma scanPartsAux_cons (parts : List String) (i : Nat) (p : String)
    (rest : List String) (st : WarningScan) :
    scanPartsAux parts i (p :: rest) st
      = Option.bind (scanStep parts i p st)
          (fun st' => scanPartsAux parts (i + 1) rest st') := rfl

/-- Claim C5, as stated, is false on the code: in the spec's own example
the month token carries a trailing comma ("October,"), which fails the
exact `part in MONTHS` membership test, so no month is ever found and
`extract_warning_text_date` raises a `TypeError` (modelled `none`) instead
of returning 2024-10-03 14:00. -/
theorem C5_counterexample :
    extract_warning_text_date ⟨2024, 11, 20⟩ "Wednesday 3 October, 14:00"
      = none := by decide

/-- Claim C5 (amended): for a warning text whose whitespace-split tokens
are a non-month, non-time word, then the day number, then a bare month
name (no trailing punctuation), then an HH:MM token, the parser returns
that day, month, hour and minute; the year is the current one unless the
current-year reading lies more than 180 days in the past by the signed
difference `today − date(current_year, month, day)` (not the absolute
difference: a date far in the future keeps the current year), in which
case the next year is used. -/
theorem C5_warning_text_date (today : PyDate) (text : String)
    (w dTok mTok tTok : String) (d m hh mm : Nat)
    (hsplit : pySplit text = [w, dTok, mTok, tTok])
    (hw1 : timeTokenCheck w = false) (hw2 : monthIndex w = none)
    (hd1 : timeTokenCheck dTok = false) (hd2 : monthIndex dTok = none)
    (hd : parseNatStr dTok = some d)
    (hm1 : timeTokenCheck mTok = false) (hm : monthIndex mTok = some m)
    (ht1 : timeTokenCheck tTok = true) (ht2 : parseTimeTok tTok = some (hh, mm))
    (ht3 : monthIndex tTok = none)
    (hv1 : pyDateValid today.year m d = true)
    (hv2 : pyDateValid (inferYear today m d) m d = true)
    (hhh : hh ≤ 23) (hmm2 : mm ≤ 59) :
    extract_warning_text_date today text
      = some ⟨inferYear today m d, m, d, hh, mm⟩ := by
  have hscan : scanParts [w, dTok, mTok, tTok]
      = some ⟨some hh, some mm, some m, some d⟩ := by
    unfold scanParts
    rw [scanPartsAux_cons, scanStep_skip _ _ _ _ hw1 hw2]
    show scanPartsAux [w, dTok, mTok, tTok] 1 [dTok, mTok, tTok]
      ⟨none, none, none, none⟩ = _
    rw [scanPartsAux_cons, scanStep_skip _ _ _ _ hd1 hd2]
    show scanPartsAux [w, dTok, mTok, tTok] 2 [mTok, tTok]
      ⟨none, none, none, none⟩ = _
    rw [scanPartsAux_cons, scanStep_month [w, dTok, mTok, tTok] 2 mTok
      ⟨none, none, none, none⟩ m d dTok hm1 hm (by rfl) hd]
    show scanPartsAux [w, dTok, mTok, tTok] 3 [tTok]
      ⟨none, none, some m, some d⟩ = _
    rw [scanPartsAux_cons, scanStep_time _ 3 _ _ hh mm ht1 ht2 ht3]
    rfl
  unfold extract_warning_text_date
  rw [hsplit, hscan]
  show buildWarningDate today ⟨some hh, some mm, some m, some d⟩ = _
  unfold buildWarningDate
  show (if pyDateValid today.year m d = true then
          (if (pyDateValid (inferYear today m d) m d
              && decide (hh ≤ 23) && decide (mm ≤ 59)) = true then
            some (⟨inferYear today m d, m, d, hh, mm⟩ : PyDateTime)
          else none)
        else none) = _
  rw [hv1, hv2, decide_eq_true hhh, decide_eq_true hmm2]
  rfl

/-- Witness for C5 at the spec's year-rollover example with the comma
removed: "Friday 3 January 09:00" read on 2024-12-20 parses to
2025-01-03 09:00. -/
theorem C5_warning_text_date_witness :
    extract_warning_text_date ⟨2024, 12, 20⟩ "Friday 3 January 09:00"
      = some ⟨2025, 1, 3, 9, 0⟩ := by
  have h := C5_warning_text_date ⟨2024, 12, 20⟩ "Friday 3 January 09:00"
    "Friday" "3" "January" "09:00" 3 1 9 0
    (by decide) (by decide) (by decide) (by decide) (by decide) (by decide)
    (by decide) (by decide) (by decide) (by decide) (by decide) (by decide)
    (by decide) (by decide) (by decide)
  rw [h]
  decide

end BBCWeather
